import Mathlib

/-!
Verification of the extraction-and-export pipeline of MAZO_MATE (src/app.py).

The pipeline under study:
* the Segmenter: the inline line-pairing loop in `main` (src/app.py
  lines 197-209), turning one raw text blob into a list of
  question/answer records;
* `export_to_excel` (lines 52-67): records → single-sheet table;
* `export_to_word` (lines 70-89): records → heading/paragraph document.

Python primitives are embedded faithfully:
* `str.split('\n')` becomes `splitLines` (structural recursion on the
  character list; an empty string splits into `[""]`, exactly as Python);
* `str.strip()` becomes `pyStrip` (drop whitespace from both ends);
* the `if generated_content:` truthiness guard becomes `s ≠ ""`;
* `try/except` bodies become total functions parameterised by the
  outcome of the underlying fallible serialization step (`SerResult`),
  with `st.error` calls collected as a message list.
-/

/-- One question/answer pair: the dict `{"Question": ..., "Answer": ...}`
built at src/app.py line 209, called `Record` in the design. -/
structure Record where
  question : String
  answer : String
deriving DecidableEq, Repr

/-- Python `str.isspace`-style whitespace test used by `str.strip()`
(ASCII whitespace: space, tab, newline, carriage return, vertical tab,
form feed). -/
def pyIsSpace (c : Char) : Bool :=
  c == ' ' || c == '\t' || c == '\n' || c == '\r' || c == '\x0b' || c == '\x0c'

/-- Drop leading and trailing whitespace from a character list. -/
def stripChars (l : List Char) : List Char :=
  ((l.dropWhile pyIsSpace).reverse.dropWhile pyIsSpace).reverse

/-- Embedding of Python `str.strip()`. -/
def pyStrip (s : String) : String :=
  String.mk (stripChars s.data)

/-- Helper for `splitLines`: walk the characters, cutting at every
newline; `acc` holds the current line's characters in reverse. -/
def splitLinesAux : List Char → List Char → List String
  | [], acc => [String.mk acc.reverse]
  | c :: cs, acc =>
      if c = '\n' then String.mk acc.reverse :: splitLinesAux cs []
      else splitLinesAux cs (c :: acc)

/-- Embedding of Python `s.split('\n')` (src/app.py line 205): split at
every newline, no filtering; the empty string yields `[""]`. -/
def splitLines (s : String) : List String :=
  splitLinesAux s.data []

/-- Embedding of the pairing loop at src/app.py lines 204-209:
`for i in range(0, len(lines), 2)` visits `i = 2*k` for
`k < ⌈len/2⌉ = (len+1)/2`; `question`/`answer` are the guarded,
stripped reads of lines `i` and `i+1`. -/
def segmentLines (lines : List String) : List Record :=
  (List.range ((lines.length + 1) / 2)).map fun k =>
    { question := if 2 * k < lines.length then pyStrip (lines.getD (2 * k) "") else ""
      answer := if 2 * k + 1 < lines.length then pyStrip (lines.getD (2 * k + 1) "") else "" }

/-- The Segmenter: src/app.py lines 197-209.  The pairing loop runs only
under the truthiness guard `if generated_content:`, so an empty string
produces no records at all. -/
def qa_pairs (generated_content : String) : List Record :=
  if generated_content = "" then []
  else segmentLines (splitLines generated_content)

/-- Outcome of the fallible serialization machinery inside an exporter's
`try` block (openpyxl / python-docx writing to the `BytesIO` buffer):
either it completes, or it raises an exception carrying a message.  The
exporters are embedded as total functions over this outcome. -/
inductive SerResult where
  | ok : SerResult
  | exn : String → SerResult
deriving DecidableEq, Repr

/-- The in-memory shape of `pd.DataFrame(data)` at src/app.py line 57:
for a list of dicts the columns are the keys in first-appearance order
(`["Question", "Answer"]` when the list is non-empty, none when it is
empty), and one row of values per dict. -/
structure DataFrame where
  columns : List String
  rows : List (List String)
deriving DecidableEq, Repr

/-- `pd.DataFrame(data)` for the record dicts built by the Segmenter. -/
def pdDataFrame (data : List Record) : DataFrame :=
  { columns := if data.isEmpty then [] else ["Question", "Answer"]
    rows := data.map fun r => [r.question, r.answer] }

/-- Abstract content of the single worksheet written by
`df.to_excel(writer, index=False, sheet_name='Interview Questions')`
(src/app.py line 61): the sheet name and the grid of cells. -/
structure ExcelSheet where
  sheetName : String
  cells : List (List String)
deriving DecidableEq, Repr

/-- `df.to_excel(..., index=False, sheet_name=...)`: with `index=False`
no index column is written; the header row holds the column names and is
followed by the data rows.  A DataFrame with no columns writes an empty
sheet — no header row at all. -/
def dfToExcel (df : DataFrame) (sheetName : String) : ExcelSheet :=
  { sheetName := sheetName
    cells := if df.columns.isEmpty then [] else df.columns :: df.rows }

/-- The successful serialization path of `export_to_excel`
(src/app.py lines 54-64): build the DataFrame, write it as the single
sheet `'Interview Questions'`. -/
def excelSerialize (data : List Record) : ExcelSheet :=
  dfToExcel (pdDataFrame data) "Interview Questions"

/-- Embedding of `export_to_excel` (src/app.py lines 52-67): the `try`
body returns the serialized sheet; the `except Exception` branch calls
`st.error(f"Error exporting to Excel: {e}")` and returns `None`.  The
second component collects the `st.error` messages. -/
def export_to_excel (ser : SerResult) (data : List Record) :
    Option ExcelSheet × List String :=
  match ser with
  | .ok => (some (excelSerialize data), [])
  | .exn e => (none, ["Error exporting to Excel: " ++ e])

/-- One block of the generated Word document: `doc.add_heading(text,
level)` or `doc.add_paragraph(text)`. -/
inductive DocxBlock where
  | heading : Nat → String → DocxBlock
  | paragraph : String → DocxBlock
deriving DecidableEq, Repr

/-- The successful serialization path of `export_to_word`
(src/app.py lines 75-81): the title heading at level 0, then for each
record a level-1 heading with the question and a paragraph with the
answer. -/
def wordSerialize (data : List Record) : List DocxBlock :=
  DocxBlock.heading 0 "Interview Questions and Answers" ::
    (data.map fun qa =>
      [DocxBlock.heading 1 qa.question, DocxBlock.paragraph qa.answer]).flatten

/-- The per-record body blocks of the Word document (the `for qa in
data:` loop at src/app.py lines 77-80), named for use in statements:
`wordSerialize data` is the title heading followed by `wordBody data`. -/
def wordBody (data : List Record) : List DocxBlock :=
  (data.map fun qa =>
    [DocxBlock.heading 1 qa.question, DocxBlock.paragraph qa.answer]).flatten

/-- Embedding of `export_to_word` (src/app.py lines 70-89): the `try`
body returns the document's block list; the `except Exception` branch
calls `st.error(f"Error exporting to Word: {e}")` and returns `None`. -/
def export_to_word (ser : SerResult) (data : List Record) :
    Option (List DocxBlock) × List String :=
  match ser with
  | .ok => (some (wordSerialize data), [])
  | .exn e => (none, ["Error exporting to Word: " ++ e])

/-- Re-reading the exported table (used for the round-trip property):
the first row of the sheet is the header, every later row gives one
(question, answer) pair from its first two cells. -/
def readBackRows (sheet : ExcelSheet) : List (String × String) :=
  match sheet.cells with
  | [] => []
  | _ :: rows => rows.map fun r => (r.getD 0 "", r.getD 1 "")

/-- The pairing loop with its list reads made explicit: `lines[i]`
evaluates to `none` (Python's `IndexError`) when the index is out of
bounds, and a read happens only where the loop's conditional guard
allows it.  Used to state that the Segmenter never performs an
out-of-bounds access. -/
def segmentLinesChecked (lines : List String) : Option (List Record) :=
  (List.range ((lines.length + 1) / 2)).mapM fun k => do
    let q ← if 2 * k < lines.length then lines[2 * k]? else some ""
    let a ← if 2 * k + 1 < lines.length then lines[2 * k + 1]? else some ""
    some { question := pyStrip q, answer := pyStrip a }

/-- The Segmenter with explicit (checked) list reads. -/
def qa_pairs_checked (s : String) : Option (List Record) :=
  if s = "" then some []
  else segmentLinesChecked (splitLines s)

theorem mapM_option_eq_map {α β : Type} (f : α → Option β) (g : α → β) :
    ∀ l : List α, (∀ x ∈ l, f x = some (g x)) → l.mapM f = some (l.map g)
  | [], _ => rfl
  | x :: xs, h => by
    rw [List.mapM_cons, h x (List.mem_cons_self x xs),
      mapM_option_eq_map f g xs (fun y hy => h y (List.mem_cons_of_mem x hy))]
    rfl

theorem segmentLines_length (lines : List String) :
    (segmentLines lines).length = (lines.length + 1) / 2 := by
  simp [segmentLines]

theorem segmentLines_getElem? (lines : List String) (i : Nat)
    (hi : i < (lines.length + 1) / 2) :
    (segmentLines lines)[i]? =
      some { question := if 2 * i < lines.length then pyStrip (lines.getD (2 * i) "") else ""
             answer := if 2 * i + 1 < lines.length then pyStrip (lines.getD (2 * i + 1) "") else "" } := by
  unfold segmentLines
  rw [List.getElem?_map, List.getElem?_range hi, Option.map_some']

-- Concrete scenarios from the design notes, checked by evaluation.
example : splitLines "" = [""] := by decide
example : splitLines "a\nb" = ["a", "b"] := by decide
example : pyStrip "  a b  " = "a b" := by decide
example : qa_pairs "" = [] := by decide
example : qa_pairs "Q1\nA1\nQ2\nA2" =
    [⟨"Q1", "A1"⟩, ⟨"Q2", "A2"⟩] := by decide
example : qa_pairs "Q1\nA1\nQ2" = [⟨"Q1", "A1"⟩, ⟨"Q2", ""⟩] := by decide
example : qa_pairs "Q1\n\nQ2\nA2" = [⟨"Q1", ""⟩, ⟨"Q2", "A2"⟩] := by decide

/-! ## Claim theorems -/

/-- C1: For the empty input string, the Segmenter returns an empty
RecordSequence containing zero Records — not a sequence with one Record
whose question and answer are both empty. -/
theorem C1_empty_input_zero_records :
    qa_pairs "" = [] ∧ (qa_pairs "").length = 0 ∧
    (qa_pairs "" == [{ question := "", answer := "" }]) = false := by
  decide

/-- C2: for every input string whose newline split is non-empty of even
length `2n`, the Segmenter produces exactly `n` Records, Record `i`
having question line `2i` stripped and answer line `2i+1` stripped, in
input order. -/
theorem C2_even_lines_pair_exactly (s : String) (n : Nat) (hn : 0 < n)
    (hlen : (splitLines s).length = 2 * n) :
    (qa_pairs s).length = n ∧
      qa_pairs s = (List.range n).map fun i =>
        { question := pyStrip ((splitLines s).getD (2 * i) "")
          answer := pyStrip ((splitLines s).getD (2 * i + 1) "") } := by
  have hs : s ≠ "" := by
    intro h; subst h
    have h1 : (splitLines "").length = 1 := by decide
    omega
  have hq : qa_pairs s = segmentLines (splitLines s) := by
    unfold qa_pairs; rw [if_neg hs]
  have hn2 : ((splitLines s).length + 1) / 2 = n := by omega
  refine ⟨?_, ?_⟩
  · rw [hq, segmentLines_length, hn2]
  · rw [hq]
    unfold segmentLines
    rw [hn2]
    apply List.map_congr_left
    intro i hi
    have hi' : i < n := List.mem_range.mp hi
    have h1 : 2 * i < (splitLines s).length := by omega
    have h2 : 2 * i + 1 < (splitLines s).length := by omega
    rw [if_pos h1, if_pos h2]

theorem C2_even_lines_pair_exactly_witness :
    0 < 2 ∧ (splitLines "Q1\nA1\nQ2\nA2").length = 2 * 2 ∧
      ((qa_pairs "Q1\nA1\nQ2\nA2").length = 2 ∧
        qa_pairs "Q1\nA1\nQ2\nA2" = (List.range 2).map fun i =>
          { question := pyStrip ((splitLines "Q1\nA1\nQ2\nA2").getD (2 * i) "")
            answer := pyStrip ((splitLines "Q1\nA1\nQ2\nA2").getD (2 * i + 1) "") }) :=
  ⟨by decide, by decide,
    C2_even_lines_pair_exactly "Q1\nA1\nQ2\nA2" 2 (by decide) (by decide)⟩

/-- C3 as frozen is false at the empty input string: its newline split
`[""]` has odd length `1 = 2·0 + 1`, yet the Segmenter produces `0`
Records, not `0 + 1`. -/
theorem C3_counterexample_empty_string :
    (splitLines "").length = 2 * 0 + 1 ∧ ((qa_pairs "").length == 0 + 1) = false := by
  decide

/-- C3 (amended: restricted to non-empty input strings): for every
non-empty input string whose newline split has odd length `2n+1`, the
Segmenter produces exactly `n+1` Records, and the final Record has an
empty answer and the last line, stripped, as its question. -/
theorem C3_odd_lines_final_record (s : String) (n : Nat) (hs : s ≠ "")
    (hlen : (splitLines s).length = 2 * n + 1) :
    (qa_pairs s).length = n + 1 ∧
      (qa_pairs s)[n]? =
        some { question := pyStrip ((splitLines s).getD (2 * n) ""), answer := "" } ∧
      (splitLines s)[2 * n]? = (splitLines s).getLast? := by
  have hq : qa_pairs s = segmentLines (splitLines s) := by
    unfold qa_pairs; rw [if_neg hs]
  refine ⟨?_, ?_, ?_⟩
  · rw [hq, segmentLines_length, hlen]; omega
  · rw [hq, segmentLines_getElem? (splitLines s) n (by omega)]
    have h1 : 2 * n < (splitLines s).length := by omega
    have h2 : ¬ 2 * n + 1 < (splitLines s).length := by omega
    rw [if_pos h1, if_neg h2]
  · rw [List.getLast?_eq_getElem?, hlen]
    norm_num

theorem C3_odd_lines_final_record_witness :
    (("Q1\nA1\nQ2" : String) == "") = false ∧ (splitLines "Q1\nA1\nQ2").length = 2 * 1 + 1 ∧
      ((qa_pairs "Q1\nA1\nQ2").length = 1 + 1 ∧
        (qa_pairs "Q1\nA1\nQ2")[1]? =
          some { question := pyStrip ((splitLines "Q1\nA1\nQ2").getD (2 * 1) ""), answer := "" } ∧
        (splitLines "Q1\nA1\nQ2")[2 * 1]? = (splitLines "Q1\nA1\nQ2").getLast?) :=
  ⟨by decide, by decide,
    C3_odd_lines_final_record "Q1\nA1\nQ2" 1 (by decide) (by decide)⟩

/-- C4 as frozen is false: on a serialization failure the value an
exporter returns to its caller is a bare `None`; it does not carry the
underlying cause (two different causes yield the identical returned
artifact value) nor any format tag. -/
theorem C4_counterexample_none_carries_nothing :
    (export_to_excel (SerResult.exn "ValueError: bad encoding") []).1 =
      (export_to_excel (SerResult.exn "MemoryError: buffer allocation failed") []).1 ∧
    (("ValueError: bad encoding" : String) == "MemoryError: buffer allocation failed") = false ∧
    (export_to_excel (SerResult.exn "ValueError: bad encoding") []).1 = none ∧
    (export_to_word (SerResult.exn "ValueError: bad encoding") []).1 = none := by
  decide

/-- C4 (amended): when an internal serialization step fails, each
exporter catches the exception — nothing propagates past its boundary —
returns `None` (no artifact), and reports the failure on the `st.error`
channel with a message naming the target format and the underlying
cause; the returned value itself is a bare `None` that carries neither
the format nor the cause. -/
theorem C4_failure_caught_reported (e : String) (data : List Record) :
    export_to_excel (SerResult.exn e) data =
        (none, ["Error exporting to Excel: " ++ e]) ∧
      export_to_word (SerResult.exn e) data =
        (none, ["Error exporting to Word: " ++ e]) :=
  ⟨rfl, rfl⟩

theorem excelSerialize_cells_of_ne (data : List Record) (h : data ≠ []) :
    (excelSerialize data).cells =
      ["Question", "Answer"] :: (data.map fun r => [r.question, r.answer]) := by
  match data, h with
  | x :: xs, _ => rfl

/-- C5 as frozen is false at the empty RecordSequence: the sheet built
from an empty record list has no cells at all, in particular no
`["Question", "Answer"]` header row. -/
theorem C5_counterexample_empty_sequence :
    (excelSerialize []).cells = [] ∧
    ((excelSerialize []).cells.head? == some ["Question", "Answer"]) = false := by
  decide

/-- C5 (amended: restricted to non-empty RecordSequences, per C10): for
every non-empty RecordSequence of length `k`, the Tabular exporter
produces the single sheet `'Interview Questions'` whose first row is the
header `["Question", "Answer"]` (no index column), followed by exactly
`k` data rows, row `i` holding Record `i`'s question and answer. -/
theorem C5_excel_sheet_shape (data : List Record) (h : data ≠ []) :
    (excelSerialize data).sheetName = "Interview Questions" ∧
    (excelSerialize data).cells.head? = some ["Question", "Answer"] ∧
    (excelSerialize data).cells.length = 1 + data.length ∧
    ∀ i : Nat,
      (excelSerialize data).cells[i + 1]? =
        (data[i]?).map fun r => [r.question, r.answer] := by
  refine ⟨rfl, ?_, ?_, ?_⟩
  · rw [excelSerialize_cells_of_ne data h]; rfl
  · rw [excelSerialize_cells_of_ne data h]
    simp [Nat.add_comm]
  · intro i
    rw [excelSerialize_cells_of_ne data h, List.getElem?_cons_succ, List.getElem?_map]

theorem C5_excel_sheet_shape_witness :
    (([⟨"Q1", "A1"⟩] : List Record) == []) = false ∧
    (excelSerialize [⟨"Q1", "A1"⟩]).sheetName = "Interview Questions" ∧
    (excelSerialize [⟨"Q1", "A1"⟩]).cells.head? = some ["Question", "Answer"] ∧
    (excelSerialize [⟨"Q1", "A1"⟩]).cells.length = 1 + 1 ∧
    (excelSerialize [⟨"Q1", "A1"⟩]).cells[0 + 1]? =
      ((([⟨"Q1", "A1"⟩] : List Record))[0]?).map fun r => [r.question, r.answer] :=
  ⟨by decide,
    (C5_excel_sheet_shape [⟨"Q1", "A1"⟩] (by decide)).1,
    (C5_excel_sheet_shape [⟨"Q1", "A1"⟩] (by decide)).2.1,
    (C5_excel_sheet_shape [⟨"Q1", "A1"⟩] (by decide)).2.2.1,
    (C5_excel_sheet_shape [⟨"Q1", "A1"⟩] (by decide)).2.2.2 0⟩


theorem wordSerialize_def (data : List Record) :
    wordSerialize data =
      DocxBlock.heading 0 "Interview Questions and Answers" :: wordBody data := rfl

theorem wordBody_length (data : List Record) :
    (wordBody data).length = 2 * data.length := by
  induction data with
  | nil => rfl
  | cons x xs ih =>
    show (([DocxBlock.heading 1 x.question, DocxBlock.paragraph x.answer] ++
        wordBody xs)).length = 2 * (xs.length + 1)
    rw [List.length_append, ih]
    simp
    ring

theorem wordBody_getElem? (data : List Record) (i : Nat) :
    (wordBody data)[2 * i]? =
      (data[i]?).map (fun r => DocxBlock.heading 1 r.question) ∧
    (wordBody data)[2 * i + 1]? =
      (data[i]?).map (fun r => DocxBlock.paragraph r.answer) := by
  induction data generalizing i with
  | nil => simp [wordBody]
  | cons x xs ih =>
    have hbody : wordBody (x :: xs) =
        DocxBlock.heading 1 x.question :: DocxBlock.paragraph x.answer ::
          wordBody xs := rfl
    cases i with
    | zero => rw [hbody]; constructor <;> simp
    | succ j =>
      have e1 : 2 * (j + 1) = (2 * j + 1) + 1 := by ring
      have e2 : 2 * (j + 1) + 1 = ((2 * j + 1) + 1) + 1 := by ring
      constructor
      · rw [hbody, e1, List.getElem?_cons_succ, List.getElem?_cons_succ,
          List.getElem?_cons_succ]
        exact (ih j).1
      · rw [hbody, e2, List.getElem?_cons_succ, List.getElem?_cons_succ,
          List.getElem?_cons_succ]
        exact (ih j).2

/-- C6: for every RecordSequence, the Document exporter's output is one
top-level title heading `"Interview Questions and Answers"` followed,
for each Record in sequence order, by a sub-heading with that Record's
question and a body paragraph with its answer.  The position formulas
hold for every index (both sides are empty past the end), so Records
with empty question or answer still produce their blocks and no Record
is skipped. -/
theorem C6_word_document_shape (data : List Record) :
    (wordSerialize data).length = 1 + 2 * data.length ∧
    (wordSerialize data).head? =
      some (DocxBlock.heading 0 "Interview Questions and Answers") ∧
    ∀ i : Nat,
      (wordSerialize data)[2 * i + 1]? =
        (data[i]?).map (fun r => DocxBlock.heading 1 r.question) ∧
      (wordSerialize data)[2 * i + 2]? =
        (data[i]?).map (fun r => DocxBlock.paragraph r.answer) := by
  rw [wordSerialize_def]
  refine ⟨?_, rfl, fun i => ?_⟩
  · rw [List.length_cons, wordBody_length]; ring
  · have e2 : 2 * i + 2 = (2 * i + 1) + 1 := rfl
    rw [e2, List.getElem?_cons_succ, List.getElem?_cons_succ]
    exact wordBody_getElem? data i

/-- C7: the Segmenter is total — on every input string the checked
semantics, in which an out-of-bounds list read would surface as `none`
(Python's `IndexError`), succeeds and returns exactly the
RecordSequence of the direct embedding: every read the loop performs is
guarded in bounds, and no failing branch exists. -/
theorem C7_segmenter_total (s : String) :
    qa_pairs_checked s = some (qa_pairs s) := by
  unfold qa_pairs_checked qa_pairs
  by_cases hs : s = ""
  · rw [if_pos hs, if_pos hs]
  · rw [if_neg hs, if_neg hs]
    unfold segmentLinesChecked segmentLines
    apply mapM_option_eq_map
    intro k hk
    have hk' : k < (((splitLines s).length + 1) / 2) := List.mem_range.mp hk
    have h1 : 2 * k < (splitLines s).length := by omega
    have hps : pyStrip "" = "" := by decide
    by_cases h2 : 2 * k + 1 < (splitLines s).length
    · simp [h1, h2, List.getElem?_eq_getElem h1, List.getElem?_eq_getElem h2]
    · simp [h1, h2, List.getElem?_eq_getElem h1, hps]

/-- C8: each exporter is deterministic — two invocations of the same
exporter on the same RecordSequence (with the same serialization
outcome) produce identical complete outputs, artifact and messages
alike; the exporters are pure functions of their input, so repeated
export is byte-identical at the model's level of abstraction. -/
theorem C8_exporters_deterministic (ser : SerResult) (d₁ d₂ : List Record)
    (h : d₁ = d₂) :
    export_to_excel ser d₁ = export_to_excel ser d₂ ∧
    export_to_word ser d₁ = export_to_word ser d₂ := by
  subst h; exact ⟨rfl, rfl⟩

theorem C8_exporters_deterministic_witness :
    ([⟨"Q1", "A1"⟩] : List Record) = [⟨"Q1", "A1"⟩] ∧
    (export_to_excel SerResult.ok [⟨"Q1", "A1"⟩] =
        export_to_excel SerResult.ok [⟨"Q1", "A1"⟩] ∧
      export_to_word SerResult.ok [⟨"Q1", "A1"⟩] =
        export_to_word SerResult.ok [⟨"Q1", "A1"⟩]) :=
  ⟨rfl, C8_exporters_deterministic SerResult.ok [⟨"Q1", "A1"⟩] [⟨"Q1", "A1"⟩] rfl⟩

theorem readBack_excelSerialize (data : List Record) :
    readBackRows (excelSerialize data) = data.map fun r => (r.question, r.answer) := by
  cases data with
  | nil => rfl
  | cons x xs =>
    have h0 : readBackRows (excelSerialize (x :: xs)) =
        ((x :: xs).map fun r => [r.question, r.answer]).map
          (fun c => (c.getD 0 "", c.getD 1 "")) := rfl
    rw [h0, List.map_map]
    rfl

/-- C9: round-trip through the tabular format — re-reading the sheet
produced by the Tabular exporter yields exactly as many rows as the
RecordSequence has Records, and the sequence of (whitespace-stripped)
question/answer pairs read back equals the sequence of Records'
(stripped) pairs, position by position. -/
theorem C9_excel_round_trip (data : List Record) :
    (readBackRows (excelSerialize data)).length = data.length ∧
    (readBackRows (excelSerialize data)).map (fun p => (pyStrip p.1, pyStrip p.2)) =
      data.map (fun r => (pyStrip r.question, pyStrip r.answer)) := by
  rw [readBack_excelSerialize, List.map_map, List.length_map]
  exact ⟨rfl, rfl⟩

/-- C10: at the Tabular exporter's boundary, the DataFrame built from
the empty record list has no columns and the produced sheet has no
cells at all — in particular no `"Question"`/`"Answer"` header row; the
header row appears exactly when the RecordSequence holds at least one
Record. -/
theorem C10_empty_sequence_no_header :
    (pdDataFrame []).columns = [] ∧
    (excelSerialize []).cells = [] ∧
    ∀ data : List Record,
      ((excelSerialize data).cells.head? = some ["Question", "Answer"] ↔
        data.isEmpty = false) := by
  refine ⟨rfl, rfl, fun data => ?_⟩
  cases data with
  | nil => simp [excelSerialize, dfToExcel, pdDataFrame]
  | cons x xs =>
    constructor
    · intro _; rfl
    · intro _; rfl
